import Mathlib

/-!
# Verification of the page-integrity-js script trust-decision engine

Shallow embedding, translated from the repository's TypeScript sources:

* `src/src/utils/script-analyzer.ts` (`analyzeScript`, `detectSuspiciousStrings`,
  `MALICIOUS_PATTERNS`, `DEFAULT_ANALYSIS_CONFIG`)
* `src/src/utils/script-blocker.ts` (`checkCachedResponse`,
  `ScriptBlocker.shouldBlockScript`, `isScriptBlocked`, `getBlockedScriptsCount`)
* `src/src/utils/cache-manager.ts` (`CacheManager.cacheResponse`)
* `src/src/utils/script-interceptor.ts` (`interceptGlobalMethods`,
  `ScriptInterceptor.start` / `stop`)
* `src/src/script-blocking.ts` (`ScriptBlocker.checkAndBlockScript`)
* `src/public/utils/hash.js` (`createHash`)

JavaScript regular expressions (`RegExp.prototype.test` / `String.prototype.match`
truthiness) are modelled by an executable Brzozowski-derivative matcher over the
regex constructs actually used by the source patterns (literals, classes,
alternation, repetition, optional groups, the `$` end anchor, and the `/i`
case-insensitivity flag, realised by lower-casing input characters).  Matched
substrings are abstracted to the matched pattern's identifier, since no score,
threat or verdict in the source depends on the captured text, only on whether a
pattern matched.  Stateful TypeScript classes become explicit state passing;
`async` methods (whose awaits only touch the in-memory cache) become plain
functions; the optional `onBlocked` callback becomes an emitted-events list
guarded by a `hasOnBlocked` flag; `Date.now()` becomes an explicit `now`
argument.
-/

/-! ## Regex engine (model of the JavaScript `RegExp` primitives) -/

/-- Regex abstract syntax: empty language, empty string, single-character
predicate (a character class given by polarity and inclusive ranges), the `$`
end-of-input anchor, concatenation, alternation and Kleene star. -/
inductive RE where
  | emp : RE
  | eps : RE
  | cls (neg : Bool) (ranges : List (Char × Char)) : RE
  | eos : RE
  | cat (a b : RE) : RE
  | alt (a b : RE) : RE
  | star (a : RE) : RE
deriving DecidableEq, Repr

namespace RE

/-- Does the character class (polarity `neg`, ranges `rs`) accept `c`? -/
def clsAccepts (neg : Bool) (rs : List (Char × Char)) (c : Char) : Bool :=
  let inRanges := rs.any (fun r => r.1 ≤ c && c ≤ r.2)
  if neg then !inRanges else inRanges

/-- Nullability in the middle of the input: can the regex match the empty
string at a position that is not necessarily the end of input?  The `$`
anchor is not nullable here. -/
def nullableMid : RE → Bool
  | emp => false
  | eps => true
  | cls _ _ => false
  | eos => false
  | cat a b => nullableMid a && nullableMid b
  | alt a b => nullableMid a || nullableMid b
  | star _ => true

/-- Nullability at the end of the input: like `nullableMid`, but the `$`
anchor accepts. -/
def nullableAtEnd : RE → Bool
  | emp => false
  | eps => true
  | cls _ _ => false
  | eos => true
  | cat a b => nullableAtEnd a && nullableAtEnd b
  | alt a b => nullableAtEnd a || nullableAtEnd b
  | star _ => true

/-- Smart concatenation constructor (keeps derivative terms small). -/
def mkCat : RE → RE → RE
  | emp, _ => emp
  | _, emp => emp
  | eps, b => b
  | a, eps => a
  | a, b => cat a b

/-- Smart alternation constructor. -/
def mkAlt : RE → RE → RE
  | emp, b => b
  | a, emp => a
  | a, b => alt a b

/-- Brzozowski derivative with respect to one input character.  The `$`
anchor has the empty derivative: nothing may follow the end of input. -/
def deriv : RE → Char → RE
  | emp, _ => emp
  | eps, _ => emp
  | cls neg rs, c => if clsAccepts neg rs c then eps else emp
  | eos, _ => emp
  | cat a b, c =>
      if nullableMid a then mkAlt (mkCat (deriv a c) b) (deriv b c)
      else mkCat (deriv a c) b
  | alt a b, c => mkAlt (deriv a c) (deriv b c)
  | star a, c => mkCat (deriv a c) (star a)

/-- Does the regex match some prefix of `cs`, where the end of `cs` is the
end of the whole input (so `$` may fire there)? -/
def matchPre : RE → List Char → Bool
  | emp, _ => false
  | r, [] => nullableAtEnd r
  | r, c :: cs => nullableMid r || matchPre (deriv r c) cs

/-- Does the regex match the entire input `cs` (used for patterns compiled
with explicit `^...$` anchors, as in `script-blocking.ts`)? -/
def matchAll : RE → List Char → Bool
  | r, [] => nullableAtEnd r
  | r, c :: cs => matchAll (deriv r c) cs

/-- Unanchored search: does the regex match starting at some position of
`cs`?  This is the truthiness of JavaScript `String.prototype.match` /
`RegExp.prototype.test` for an unanchored pattern. -/
def search (r : RE) : List Char → Bool
  | [] => matchPre r []
  | c :: cs => matchPre r (c :: cs) || search r cs

end RE

/-- ASCII lower-casing, modelling the `/i` flag on every analyzer pattern
(all analysed pattern text is ASCII). -/
def toLowerAscii (c : Char) : Char :=
  if 'A' ≤ c && c ≤ 'Z' then Char.ofNat (c.toNat + 32) else c

/-- `RegExp.prototype.test` truthiness for a case-insensitive pattern: fold
the input to lower case and search anywhere.  Pattern literals below are
written in lower case accordingly. -/
def reTest (r : RE) (s : String) : Bool :=
  RE.search r (s.data.map toLowerAscii)

/-! ### Pattern-building helpers -/

/-- Single literal character. -/
def chr (c : Char) : RE := RE.cls false [(c, c)]

/-- Literal string (each character matched exactly). -/
def lit (s : String) : RE :=
  s.data.foldr (fun c r => RE.mkCat (chr c) r) RE.eps

/-- n-ary alternation. -/
def alts (rs : List RE) : RE := rs.foldr RE.mkAlt RE.emp

/-- `X?` -/
def opt (r : RE) : RE := RE.alt r RE.eps

/-- `X+` -/
def plus (r : RE) : RE := RE.cat r (RE.star r)

/-- The apostrophe character (`'`). -/
def apoChar : Char := Char.ofNat 39

/-- `['"]` — a single or double quote. -/
def quote : RE := RE.cls false [(apoChar, apoChar), ('\"', '\"')]

/-- `[^'"]` — any character other than a quote. -/
def notQuote : RE := RE.cls true [(apoChar, apoChar), ('\"', '\"')]

/-- `\s` — the full ECMAScript whitespace class (WhiteSpace and
LineTerminator): tab, line feed, vertical tab, form feed, carriage return
(U+0009–U+000D), space, no-break space U+00A0, ogham space mark U+1680,
the U+2000–U+200A spaces, line/paragraph separators U+2028/U+2029, narrow
no-break space U+202F, medium mathematical space U+205F, ideographic space
U+3000, and zero-width no-break space U+FEFF. -/
def wsChar : RE :=
  RE.cls false [(Char.ofNat 9, Char.ofNat 13), (' ', ' '),
                (Char.ofNat 160, Char.ofNat 160),
                (Char.ofNat 5760, Char.ofNat 5760),
                (Char.ofNat 8192, Char.ofNat 8202),
                (Char.ofNat 8232, Char.ofNat 8233),
                (Char.ofNat 8239, Char.ofNat 8239),
                (Char.ofNat 8287, Char.ofNat 8287),
                (Char.ofNat 12288, Char.ofNat 12288),
                (Char.ofNat 65279, Char.ofNat 65279)]

/-- `\s*` -/
def ws : RE := RE.star wsChar

/-- `\s+` -/
def ws1 : RE := plus wsChar

/-- `\d` -/
def digit : RE := RE.cls false [('0', '9')]

/-- `[^>]*` -/
def notGtStar : RE := RE.star (RE.cls true [('>', '>')])

/-- A small sanity check of the engine on the anchor. -/
example : reTest (RE.cat (lit "ab") RE.eos) "xxab" = true := by decide

example : reTest (RE.cat (lit "ab") RE.eos) "abx" = false := by decide

example : reTest (lit "eval") "window.EVAL(x)" = true := by decide

/-- Concatenation of a pattern sequence. -/
def seq (rs : List RE) : RE := rs.foldr RE.mkCat RE.eps

/-! ## `MALICIOUS_PATTERNS` from `script-analyzer.ts`

One definition per source regex, written in lower case (the `/i` flag is
realised by `reTest` lower-casing the input). -/

/-- `/document\.write\s*\(\s*['"]<iframe[^>]*src\s*=\s*['"]javascript:/i` -/
def pEvasion1 : RE :=
  seq [lit "document.write", ws, chr '(', ws, quote, lit "<iframe", notGtStar,
       lit "src", ws, chr '=', ws, quote, lit "javascript:"]

/-- `/document\.location\s*=\s*['"]javascript:/i` -/
def pEvasion2 : RE :=
  seq [lit "document.location", ws, chr '=', ws, quote, lit "javascript:"]

/-- `/(?:setTimeout|setInterval)\s*\(\s*['"][^'"]*['"]/i` -/
def pEvasion3 : RE :=
  seq [alts [lit "settimeout", lit "setinterval"], ws, chr '(', ws, quote,
       RE.star notQuote, quote]

/-- `/document\.domain\s*=\s*['"][^'"]*['"]/i` -/
def pEvasion4 : RE :=
  seq [lit "document.domain", ws, chr '=', ws, quote, RE.star notQuote, quote]

/-- `/Object\.defineProperty\s*\(\s*window\s*,\s*['"]onerror['"]/i` -/
def pEvasion5 : RE :=
  seq [lit "object.defineproperty", ws, chr '(', ws, lit "window", ws, chr ',',
       ws, quote, lit "onerror", quote]

/-- `/document\.write\s*\(\s*['"]<iframe[^>]*style\s*=\s*['"]display\s*:\s*none[^>]*src\s*=\s*['"](?:javascript|data|vbscript):/i` -/
def pCovert1 : RE :=
  seq [lit "document.write", ws, chr '(', ws, quote, lit "<iframe", notGtStar,
       lit "style", ws, chr '=', ws, quote, lit "display", ws, chr ':', ws,
       lit "none", notGtStar, lit "src", ws, chr '=', ws, quote,
       alts [lit "javascript", lit "data", lit "vbscript"], chr ':']

/-- `/document\.write\s*\(\s*['"]<script[^>]*src\s*=\s*['"](?:javascript|data|vbscript):/i` -/
def pCovert2 : RE :=
  seq [lit "document.write", ws, chr '(', ws, quote, lit "<script", notGtStar,
       lit "src", ws, chr '=', ws, quote,
       alts [lit "javascript", lit "data", lit "vbscript"], chr ':']

/-- `/new\s+Worker\s*\(\s*['"]data:application\/javascript;base64/i` -/
def pCovert3 : RE :=
  seq [lit "new", ws1, lit "worker", ws, chr '(', ws, quote,
       lit "data:application/javascript;base64"]

/-- `/Function\s*\(\s*['"]return\s+eval\s*\(/i` -/
def pCovert4 : RE :=
  seq [lit "function", ws, chr '(', ws, quote, lit "return", ws1, lit "eval",
       ws, chr '(']

/-- `/eval\s*\(\s*['"][^'"]*['"]\s*\)/i` -/
def pCovert5 : RE :=
  seq [lit "eval", ws, chr '(', ws, quote, RE.star notQuote, quote, ws, chr ')']

/-- `/new\s+Function\s*\(\s*['"][^'"]*['"]\s*\)/i` -/
def pCovert6 : RE :=
  seq [lit "new", ws1, lit "function", ws, chr '(', ws, quote,
       RE.star notQuote, quote, ws, chr ')']

/-- `/Object\.defineProperty\s*\(\s*document\s*,\s*['"]cookie['"]/i` -/
def pBypass1 : RE :=
  seq [lit "object.defineproperty", ws, chr '(', ws, lit "document", ws,
       chr ',', ws, quote, lit "cookie", quote]

/-- `/String\.fromCharCode\s*\(\s*\d+\s*\)\s*\.\s*replace\s*\(\s*['"]\s*['"]\s*,\s*['"]\s*['"]/i` -/
def pBypass2 : RE :=
  seq [lit "string.fromcharcode", ws, chr '(', ws, plus digit, ws, chr ')', ws,
       chr '.', ws, lit "replace", ws, chr '(', ws, quote, ws, quote, ws,
       chr ',', ws, quote, ws, quote]

/-- `/Object\.defineProperty\s*\(\s*navigator\s*,\s*['"]userAgent['"]/i` -/
def pBypass3 : RE :=
  seq [lit "object.defineproperty", ws, chr '(', ws, lit "navigator", ws,
       chr ',', ws, quote, lit "useragent", quote]

/-- `/document\.domain\s*=\s*['"]\*['"]/i` -/
def pBypass4 : RE :=
  seq [lit "document.domain", ws, chr '=', ws, quote, chr '*', quote]

/-- `/Object\.defineProperty\s*\(\s*window\s*,\s*['"]alert['"]/i` -/
def pBypass5 : RE :=
  seq [lit "object.defineproperty", ws, chr '(', ws, lit "window", ws, chr ',',
       ws, quote, lit "alert", quote]

/-- `/delete\s+window\.alert/i` -/
def pBypass6 : RE := seq [lit "delete", ws1, lit "window.alert"]

/-- `/window\.alert\s*=\s*function/i` -/
def pBypass7 : RE := seq [lit "window.alert", ws, chr '=', ws, lit "function"]

/-- `/document\.cookie\s*\+\s*['"](?:\s*&\s*|%26)?(?:key|token|auth|password|secret)=\s*\+\s*encodeURIComponent/i` -/
def pIntent1 : RE :=
  seq [lit "document.cookie", ws, chr '+', ws, quote,
       opt (alts [seq [ws, chr '&', ws], lit "%26"]),
       alts [lit "key", lit "token", lit "auth", lit "password", lit "secret"],
       chr '=', ws, chr '+', ws, lit "encodeuricomponent"]

/-- `/document\.write\s*\(\s*['"]<script[^>]*>\s*eval\s*\(/i` -/
def pIntent2 : RE :=
  seq [lit "document.write", ws, chr '(', ws, quote, lit "<script", notGtStar,
       chr '>', ws, lit "eval", ws, chr '(']

/-- `/Object\.defineProperty\s*\(\s*window\s*,\s*['"]localStorage['"]/i` -/
def pIntent3 : RE :=
  seq [lit "object.defineproperty", ws, chr '(', ws, lit "window", ws, chr ',',
       ws, quote, lit "localstorage", quote]

/-- `/document\.createElement\s*\(\s*['"]script['"]\s*\)\s*\.\s*setAttribute\s*\(\s*['"]crossorigin['"]/i` -/
def pIntent4 : RE :=
  seq [lit "document.createelement", ws, chr '(', ws, quote, lit "script",
       quote, ws, chr ')', ws, chr '.', ws, lit "setattribute", ws, chr '(',
       ws, quote, lit "crossorigin", quote]

/-- `/fetch\s*\(\s*['"][^'"]*malicious[^'"]*['"]/i` -/
def pIntent5 : RE :=
  seq [lit "fetch", ws, chr '(', ws, quote, RE.star notQuote, lit "malicious",
       RE.star notQuote, quote]

/-- `/navigator\.sendBeacon\s*\(\s*['"][^'"]*malicious[^'"]*['"]/i` -/
def pIntent6 : RE :=
  seq [lit "navigator.sendbeacon", ws, chr '(', ws, quote, RE.star notQuote,
       lit "malicious", RE.star notQuote, quote]

/-- The four fixed categories of `MALICIOUS_PATTERNS`, in source order.
Each pattern carries a stable identifier standing in for the regex's
`toString()` in detail records. -/
def MALICIOUS_PATTERNS : List (String × List (String × RE)) :=
  [("evasion",
     [("evasion-1", pEvasion1), ("evasion-2", pEvasion2),
      ("evasion-3", pEvasion3), ("evasion-4", pEvasion4),
      ("evasion-5", pEvasion5)]),
   ("covertExecution",
     [("covertExecution-1", pCovert1), ("covertExecution-2", pCovert2),
      ("covertExecution-3", pCovert3), ("covertExecution-4", pCovert4),
      ("covertExecution-5", pCovert5), ("covertExecution-6", pCovert6)]),
   ("securityBypass",
     [("securityBypass-1", pBypass1), ("securityBypass-2", pBypass2),
      ("securityBypass-3", pBypass3), ("securityBypass-4", pBypass4),
      ("securityBypass-5", pBypass5), ("securityBypass-6", pBypass6),
      ("securityBypass-7", pBypass7)]),
   ("maliciousIntent",
     [("maliciousIntent-1", pIntent1), ("maliciousIntent-2", pIntent2),
      ("maliciousIntent-3", pIntent3), ("maliciousIntent-4", pIntent4),
      ("maliciousIntent-5", pIntent5), ("maliciousIntent-6", pIntent6)])]

/-- All malicious patterns of all categories, flattened. -/
def allMaliciousPatterns : List (String × RE) :=
  MALICIOUS_PATTERNS.flatMap (·.2)

/-! ## `detectSuspiciousStrings` from `script-analyzer.ts` -/

/-- `/(?:bypass|evade|disable|override)\s*(?:security|protection|filter|policy)/i` -/
def pSusp1 : RE :=
  seq [alts [lit "bypass", lit "evade", lit "disable", lit "override"], ws,
       alts [lit "security", lit "protection", lit "filter", lit "policy"]]

/-- `/\.(?:php|asp|jsp|exe|dll|bat|cmd|sh|bash)(?:\?|$)/i` -/
def pSusp2 : RE :=
  seq [chr '.',
       alts [lit "php", lit "asp", lit "jsp", lit "exe", lit "dll", lit "bat",
             lit "cmd", lit "sh", lit "bash"],
       alts [chr '?', RE.eos]]

/-- `/(?:sql|nosql|command|shell|exec|system)\.(?:injection|attack)/i` -/
def pSusp3 : RE :=
  seq [alts [lit "sql", lit "nosql", lit "command", lit "shell", lit "exec",
             lit "system"],
       chr '.', alts [lit "injection", lit "attack"]]

/-- `/(?:hide|conceal|mask|obscure)\s*(?:execution|code|script|behavior)/i` -/
def pSusp4 : RE :=
  seq [alts [lit "hide", lit "conceal", lit "mask", lit "obscure"], ws,
       alts [lit "execution", lit "code", lit "script", lit "behavior"]]

/-- The `maliciousPatterns` list inside `detectSuspiciousStrings`, with
stable identifiers in place of the regexes' `toString()`. -/
def SUSPICIOUS_PATTERNS : List (String × RE) :=
  [("susp-1", pSusp1), ("susp-2", pSusp2), ("susp-3", pSusp3),
   ("susp-4", pSusp4)]

/-- `detectSuspiciousStrings(content)`: for every suspicious pattern that
matches, push a `suspicious-pattern:` tag. -/
def detectSuspiciousStrings (content : String) : List String :=
  SUSPICIOUS_PATTERNS.foldl
    (fun suspicious p =>
      if reTest p.2 content then
        suspicious ++ ["suspicious-pattern:" ++ p.1]
      else suspicious)
    []

/-! ## `analyzeScript` from `script-analyzer.ts` -/

/-- The `weights` block of `AnalysisConfig`. -/
structure AnalysisWeights where
  evasion : Int
  covertExecution : Int
  securityBypass : Int
  maliciousIntent : Int
deriving DecidableEq, Repr

/-- The `scoringRules` block of `AnalysisConfig`. -/
structure ScoringRules where
  minSafeScore : Int
  maxThreats : Nat
  suspiciousStringWeight : Int
deriving DecidableEq, Repr

/-- `AnalysisConfig` from `script-analyzer.ts`.  Scores are JavaScript
numbers taking only integer values here, embedded as `Int`; threat counts
are compared against `maxThreats`, embedded as `Nat`. -/
structure AnalysisConfig where
  minScore : Int
  maxThreats : Nat
  checkSuspiciousStrings : Bool
  weights : AnalysisWeights
  scoringRules : ScoringRules
deriving DecidableEq, Repr

/-- `DEFAULT_ANALYSIS_CONFIG` from `script-analyzer.ts`. -/
def DEFAULT_ANALYSIS_CONFIG : AnalysisConfig :=
  { minScore := 3
    maxThreats := 2
    checkSuspiciousStrings := true
    weights :=
      { evasion := 3, covertExecution := 3, securityBypass := 2,
        maliciousIntent := 2 }
    scoringRules :=
      { minSafeScore := 3, maxThreats := 2, suspiciousStringWeight := 1 } }

/-- One entry of the `details` array: the pattern identifier (standing in
for the regex text and its matches, on which nothing downstream depends). -/
structure AnalysisDetail where
  pattern : String
deriving DecidableEq, Repr

/-- `ScriptAnalysis` / `AnalysisResult`: threat tags, numeric score, detail
records, and the `analysisDetails` block (its `suspiciousStrings` and
`categories` fields, the only ones this variant populates). -/
structure ScriptAnalysis where
  threats : List String
  score : Int
  details : List AnalysisDetail
  suspiciousStrings : List String
  categories : List String
deriving DecidableEq, Repr

/-- The `switch (category)` weighting inside `analyzeScript` (this variant
hard-codes the weights; the config's `weights` block is not consulted). -/
def categoryWeight (category : String) : Int :=
  if category = "evasion" then 3
  else if category = "covertExecution" then 3
  else if category = "securityBypass" then 2
  else if category = "maliciousIntent" then 2
  else 0

/-- The body of the inner `for (const pattern of patterns)` loop: on a
match, push the category as a threat, push a detail record, add the
category weight to the score. -/
def patStep (content : String) (category : String)
    (acc : List String × List AnalysisDetail × Int) (pat : String × RE) :
    List String × List AnalysisDetail × Int :=
  if reTest pat.2 content then
    (acc.1 ++ [category], acc.2.1 ++ [⟨pat.1⟩], acc.2.2 + categoryWeight category)
  else acc

/-- The outer `for (const [category, patterns] of Object.entries(...))` loop. -/
def catStep (content : String)
    (acc : List String × List AnalysisDetail × Int)
    (cat : String × List (String × RE)) :
    List String × List AnalysisDetail × Int :=
  cat.2.foldl (patStep content cat.1) acc

/-- Both pattern loops of `analyzeScript`, producing the accumulated
threats, details and score before the combination bonus. -/
def scanAll (content : String) : List String × List AnalysisDetail × Int :=
  MALICIOUS_PATTERNS.foldl (catStep content) ([], [], 0)

/-- `[...new Set(xs)]`: deduplicate keeping first occurrences, in order. -/
def jsSetDedup (xs : List String) : List String :=
  go [] xs
where
  go : List String → List String → List String
  | _, [] => []
  | seen, x :: rest =>
      if seen.contains x then go seen rest
      else x :: go (seen ++ [x]) rest

/-- `analyzeScript(content, config)` from `script-analyzer.ts`: scan all
malicious-pattern categories, apply the evasion-combination bonus, then the
optional suspicious-string pass. -/
def analyzeScript (content : String) (config : AnalysisConfig) :
    ScriptAnalysis :=
  let scanned := scanAll content
  let threats := scanned.1
  let details := scanned.2.1
  let score := scanned.2.2
  let score :=
    if threats.contains "evasion" &&
       (threats.contains "covertExecution" || threats.contains "securityBypass")
    then score + 2 else score
  let suspiciousStrings :=
    if config.checkSuspiciousStrings then detectSuspiciousStrings content
    else []
  let threats :=
    if suspiciousStrings.length > 0 then threats ++ ["suspicious-strings"]
    else threats
  let score :=
    if suspiciousStrings.length > 0 then score + (suspiciousStrings.length : Int)
    else score
  { threats := threats
    score := score
    details := details
    suspiciousStrings := suspiciousStrings
    categories := jsSetDedup threats }

example :
    (analyzeScript "console.log(\"hello\")" DEFAULT_ANALYSIS_CONFIG).score = 0 := by
  decide

example :
    (analyzeScript "setTimeout(\"x\")" DEFAULT_ANALYSIS_CONFIG).threats
      = ["evasion"] := by
  decide

example :
    (analyzeScript "eval(\"alert(1)\")" DEFAULT_ANALYSIS_CONFIG).threats
      = ["covertExecution"] := by
  decide

example :
    (analyzeScript "eval(\"alert(1)\")" DEFAULT_ANALYSIS_CONFIG).score = 3 := by
  decide

example : reTest pEvasion3 "setTimeout\u00A0(\"x\")" = true := by decide

example :
    (analyzeScript "setTimeout\u00A0(\"x\")" DEFAULT_ANALYSIS_CONFIG).threats
      = ["evasion"] := by
  decide

/-! ## `createHash` from `public/utils/hash.js` -/

/-- UTF-8 encoding of one character (the `TextEncoder` primitive). -/
def utf8Bytes (c : Char) : List Nat :=
  let n := c.toNat
  if n < 128 then [n]
  else if n < 2048 then [192 + n / 64, 128 + n % 64]
  else if n < 65536 then [224 + n / 4096, 128 + (n / 64) % 64, 128 + n % 64]
  else [240 + n / 262144, 128 + (n / 4096) % 64, 128 + (n / 64) % 64,
        128 + n % 64]

/-- Truncation to a signed 32-bit value (`x & x` / `x << 5` coercion in
JavaScript). -/
def toInt32 (n : Int) : Int :=
  let m := n % 4294967296
  if m ≥ 2147483648 then m - 4294967296 else m

/-- One loop iteration of `createHash`:
`hash = ((hash << 5) - hash) + data[i]; hash = hash & hash`. -/
def hashStep (h : Int) (b : Nat) : Int :=
  toInt32 (toInt32 (h * 32) - h + (b : Int))

/-- `hash.toString(16)` for a signed 32-bit value. -/
def int32ToHexString (h : Int) : String :=
  if h < 0 then "-" ++ String.mk (Nat.toDigits 16 (-h).toNat)
  else String.mk (Nat.toDigits 16 h.toNat)

/-- `createHash(text)` from `hash.js`: fold the 31-multiplier rolling hash
over the UTF-8 bytes and render in hexadecimal. -/
def createHash (text : String) : String :=
  int32ToHexString ((text.data.flatMap utf8Bytes).foldl hashStep 0)

/-! ## `CacheManager` from `cache-manager.ts`

The browser `caches` store (one named cache) is modelled as an
insertion-ordered association list; `cache.put` replaces an existing key in
place or appends a fresh one, `cache.keys()` lists keys in that order,
`cache.delete(k)` removes the entry with key `k`.  The JSON
serialise/parse round trip of entries is the identity here. -/

/-- `CacheEntry` from `cache-manager.ts` (`url`, optional `analysis`,
optional `reason`). -/
structure CacheEntry where
  url : String
  analysis : Option ScriptAnalysis
  reason : Option String
deriving DecidableEq, Repr

/-- The contents of the named cache, in insertion order. -/
abbrev Cache := List (String × CacheEntry)

/-- `cache.put(hash, response)`: replace in place or append. -/
def cachePut (cache : Cache) (k : String) (e : CacheEntry) : Cache :=
  match cache with
  | [] => [(k, e)]
  | (k0, e0) :: rest =>
      if k0 = k then (k, e) :: rest else (k0, e0) :: cachePut rest k e

/-- `cache.keys()`, in insertion order. -/
def cacheKeys (cache : Cache) : List String := cache.map (·.1)

/-- `cache.delete(k)`: remove the entry keyed `k` (keys are unique in the
browser store; this removes the first occurrence). -/
def cacheDeleteKey (cache : Cache) (k : String) : Cache :=
  match cache with
  | [] => []
  | (k0, e0) :: rest =>
      if k0 = k then rest else (k0, e0) :: cacheDeleteKey rest k

/-- `CacheManager.getCachedResponse(hash)`: the stored entry, or `null`. -/
def getCachedResponse (cache : Cache) (hash : String) : Option CacheEntry :=
  List.lookup hash cache

/-- `CacheManager.cacheResponse(hash, url, analysis?)`: put the entry, then
if the key count exceeds `maxSize`, delete the single oldest key
(`keys[0]`). -/
def cacheResponse (maxSize : Nat) (cache : Cache) (hash url : String)
    (analysis : Option ScriptAnalysis) : Cache :=
  let c := cachePut cache hash { url := url, analysis := analysis, reason := none }
  if maxSize < c.length then
    match cacheKeys c with
    | [] => c
    | k0 :: _ => cacheDeleteKey c k0
  else c

/-- `MAX_CACHE_SIZE` from `cache-manager.ts`. -/
def MAX_CACHE_SIZE : Nat := 2500

/-! ## `ScriptBlocker` from `script-blocker.ts` -/

/-- `BlockedScript` from `script-blocker.ts`. -/
structure BlockedScript where
  url : String
  reason : String
  analysis : Option ScriptAnalysis
deriving DecidableEq, Repr

/-- The event passed to `config.onBlocked` by `shouldBlockScript`
(`type: 'script'`, `timestamp: Date.now()`, `url`, `source: 'external'`,
`details`). -/
structure BlockedEventInfo where
  etype : String
  timestamp : Nat
  url : String
  source : String
  details : BlockedScript
deriving DecidableEq, Repr

/-- The slice of `PageIntegrityConfig` consumed by
`ScriptBlocker.shouldBlockScript`, after the constructor has defaulted
`analysisConfig` (`config.analysisConfig ?? DEFAULT_ANALYSIS_CONFIG`).
Absent pattern lists are the empty list (`?.some` over `undefined` is
falsy, exactly as `[].any`); the optional `onBlocked` callback is a
presence flag, and firing it is modelled by emitting the event. -/
structure PageIntegrityConfig where
  blackListedScripts : List String
  whiteListedScripts : List String
  hasOnBlocked : Bool
  analysisConfig : AnalysisConfig
deriving DecidableEq, Repr

/-- `url.includes(pattern)`: substring containment. -/
def jsIncludes (s pat : String) : Bool :=
  decide (List.IsInfix pat.data s.data)

/-- The mutable state of a `ScriptBlocker` instance plus its injected
`CacheManager`: the `blockedScripts` map (insertion-ordered, as a
JavaScript `Map`) and the cache contents. -/
structure SBState where
  blockedScripts : List (String × BlockedScript)
  cache : Cache
deriving DecidableEq, Repr

/-- `Map.prototype.set`: overwrite in place or append. -/
def mapSet (m : List (String × BlockedScript)) (k : String) (v : BlockedScript) :
    List (String × BlockedScript) :=
  match m with
  | [] => [(k, v)]
  | (k0, v0) :: rest =>
      if k0 = k then (k, v) :: rest else (k0, v0) :: mapSet rest k v

/-- The result object `{blocked, reason?, analysis?}`. -/
structure CachedCheck where
  blocked : Bool
  reason : Option String
  analysis : Option ScriptAnalysis
deriving DecidableEq, Repr

/-- `checkCachedResponse(cacheManager, url, content)` from
`script-blocker.ts`: hash the content, look it up; a cached analysis is
judged malicious with the fixed thresholds `score >= 3 || threats.length
>= 2`.  (The `typeof`/`Array.isArray` guards of the source are dynamic-type
checks that always pass in this typed model.) -/
def checkCachedResponse (cache : Cache) (url content : String) : CachedCheck :=
  let hash := createHash content
  match getCachedResponse cache hash with
  | some cached =>
      match cached.analysis with
      | some analysis =>
          let isMalicious :=
            decide (3 ≤ analysis.score) || decide (2 ≤ analysis.threats.length)
          { blocked := isMalicious
            reason := some (cached.reason.getD "Cached block")
            analysis := some analysis }
      | none => { blocked := false, reason := none, analysis := none }
  | none => { blocked := false, reason := none, analysis := none }

/-- `config.onBlocked?.(ev)`: the event is delivered only when a callback
is configured. -/
def emitIf (hasCb : Bool) (ev : BlockedEventInfo) : List BlockedEventInfo :=
  if hasCb then [ev] else []

/-- The full outcome of one `shouldBlockScript` call: the returned result,
the updated state, the events delivered to `onBlocked`, and how many times
`analyzeScriptContent` ran during the call (0 or 1). -/
structure SBOutcome where
  result : CachedCheck
  state : SBState
  events : List BlockedEventInfo
  analyzerCalls : Nat
deriving DecidableEq, Repr

/-- `ScriptBlocker.shouldBlockScript(url, content)` from
`script-blocker.ts`: deny-list check, then allow-list check, then cache
check, then fresh analysis.  Every branch records the url in
`blockedScripts`; nothing is ever written to the cache. -/
def shouldBlockScript (cfg : PageIntegrityConfig) (st : SBState) (now : Nat)
    (url content : String) : SBOutcome :=
  if cfg.blackListedScripts.any (fun pat => jsIncludes url pat) then
    let blockedInfo : BlockedScript :=
      { url := url, reason := "Blacklisted script", analysis := none }
    { result := { blocked := true, reason := some "Blacklisted script",
                  analysis := none }
      state := { blockedScripts := mapSet st.blockedScripts url blockedInfo,
                 cache := st.cache }
      events := emitIf cfg.hasOnBlocked
        { etype := "script", timestamp := now, url := url,
          source := "external", details := blockedInfo }
      analyzerCalls := 0 }
  else if cfg.whiteListedScripts.any (fun pat => jsIncludes url pat) then
    let info : BlockedScript :=
      { url := url, reason := "Whitelisted script", analysis := none }
    { result := { blocked := false, reason := some "Whitelisted script",
                  analysis := none }
      state := { blockedScripts := mapSet st.blockedScripts url info,
                 cache := st.cache }
      events := []
      analyzerCalls := 0 }
  else
    let cached := checkCachedResponse st.cache url content
    if cached.blocked then
      let blockedInfo : BlockedScript :=
        { url := url, reason := cached.reason.getD "Cached block",
          analysis := cached.analysis }
      { result := cached
        state := { blockedScripts := mapSet st.blockedScripts url blockedInfo,
                   cache := st.cache }
        events := emitIf cfg.hasOnBlocked
          { etype := "script", timestamp := now, url := url,
            source := "external", details := blockedInfo }
        analyzerCalls := 0 }
    else
      let analysis := analyzeScript content cfg.analysisConfig
      if decide (cfg.analysisConfig.minScore ≤ analysis.score) ||
         decide (cfg.analysisConfig.maxThreats ≤ analysis.threats.length) then
        let blockedInfo : BlockedScript :=
          { url := url, reason := "Malicious script detected",
            analysis := some analysis }
        { result := { blocked := true,
                      reason := some "Malicious script detected",
                      analysis := some analysis }
          state := { blockedScripts := mapSet st.blockedScripts url blockedInfo,
                     cache := st.cache }
          events := emitIf cfg.hasOnBlocked
            { etype := "script", timestamp := now, url := url,
              source := "external", details := blockedInfo }
          analyzerCalls := 1 }
      else
        let info : BlockedScript :=
          { url := url, reason := "Script analyzed", analysis := some analysis }
        { result := { blocked := false, reason := none,
                      analysis := some analysis }
          state := { blockedScripts := mapSet st.blockedScripts url info,
                     cache := st.cache }
          events := []
          analyzerCalls := 1 }

/-- `ScriptBlocker.isScriptBlocked(url)`: membership in the
`blockedScripts` map (recorded allowed scripts included). -/
def isScriptBlocked (st : SBState) (url : String) : Bool :=
  (List.lookup url st.blockedScripts).isSome

/-- `ScriptBlocker.getBlockedScriptsCount()`: the map's size. -/
def getBlockedScriptsCount (st : SBState) : Nat :=
  st.blockedScripts.length

/-! ## `ScriptInterceptor` from `script-interceptor.ts`

The patched browser globals are modelled as opaque function values: a
pre-existing global is a `base` value, and each assignment
`window.eval = function(...) { ... originalEval ... }` inside
`interceptGlobalMethods` produces a distinct `wrapped` value closing over
the previous one. -/

/-- A global function slot's value: whatever was there before, or a wrapper
installed around it. -/
inductive GFn where
  | base (id : Nat) : GFn
  | wrapped (inner : GFn) : GFn
deriving DecidableEq, Repr

/-- The global slots patched by `interceptGlobalMethods`. -/
structure Globals where
  evalFn : GFn
  functionCtor : GFn
  setTimeoutFn : GFn
  setIntervalFn : GFn
  xhrOpen : GFn
  xhrSend : GFn
  fetchFn : GFn
deriving DecidableEq, Repr

/-- `interceptGlobalMethods(scriptBlocker)`: capture the current value of
each slot and install a wrapper around it. -/
def interceptGlobalMethods (g : Globals) : Globals :=
  { evalFn := .wrapped g.evalFn
    functionCtor := .wrapped g.functionCtor
    setTimeoutFn := .wrapped g.setTimeoutFn
    setIntervalFn := .wrapped g.setIntervalFn
    xhrOpen := .wrapped g.xhrOpen
    xhrSend := .wrapped g.xhrSend
    fetchFn := .wrapped g.fetchFn }

/-- A `ScriptInterceptor` instance's `_isRunning` flag together with the
ambient globals it mutates. -/
structure InterceptorState where
  isRunning : Bool
  globals : Globals
deriving DecidableEq, Repr

/-- `ScriptInterceptor.start()`: no-op if running, else set `_isRunning`
and patch the globals. -/
def interceptorStart (s : InterceptorState) : InterceptorState :=
  if s.isRunning then s
  else { isRunning := true, globals := interceptGlobalMethods s.globals }

/-- `ScriptInterceptor.stop()`: no-op if not running, else clear
`_isRunning`.  The source deliberately does not touch the globals
("We can't easily restore the original methods"). -/
def interceptorStop (s : InterceptorState) : InterceptorState :=
  if !s.isRunning then s
  else { isRunning := false, globals := s.globals }

/-! ## `ScriptBlocker.checkAndBlockScript` from `script-blocking.ts`

`new URL(src, base)` is a browser primitive; it is modelled by an explicit
`parseURL` argument returning the parsed components or `none` where the
constructor would throw.  The `onBlocked` event here carries `{type,
target, stackTrace, context:{source, origin}}`; the DOM `target` and the
stack-trace text are irrelevant to every claim and are represented by the
event's origin/source context. -/

/-- Components of a parsed URL used by `checkAndBlockScript`. -/
structure URLParts where
  href : String
  origin : String
  protocol : String
  hostname : String
deriving DecidableEq, Repr

/-- An `HTMLScriptElement` as observed by `checkAndBlockScript`: its `src`
(the empty string when unset, as reflected by the DOM), its inline text,
and the `data-pi-checked` marker attribute. -/
structure ScriptEl where
  src : String
  textContent : String
  dataPiChecked : Bool
deriving DecidableEq, Repr

/-- The configuration surface consumed by `script-blocking.ts`:
`allowedHosts` / `blockedHosts` glob patterns, `blockExtensions`,
`reportUnknownScripts`, and the `onBlocked` callback presence. -/
structure BlockingConfig where
  allowedHosts : List String
  blockedHosts : List String
  blockExtensions : Bool
  reportUnknownScripts : Bool
  hasOnBlocked : Bool
deriving DecidableEq, Repr

/-- The page's `window.location` fields used by `checkAndBlockScript`. -/
structure PageLocation where
  origin : String
  hostname : String
deriving DecidableEq, Repr

/-- An event passed to `config.onBlocked` by `script-blocking.ts`
(`type`, and the `context.source` / `context.origin` payload). -/
structure BlockingEvent where
  etype : String
  source : String
  origin : String
deriving DecidableEq, Repr

/-- `setPatternsFromConfig`: `new RegExp('^' + pattern.replace(/\*/g,
'.*') + '$')` — `*` becomes `.*`, a literal `.` in the host pattern stays a
regex wildcard, and the result is anchored at both ends.  (Host patterns in
this configuration surface contain no other regex metacharacters.) -/
def compileHostPattern (pat : String) : RE :=
  pat.data.foldr
    (fun c r =>
      if c = '*' then RE.mkCat (RE.star (RE.cls true [])) r
      else if c = '.' then RE.mkCat (RE.cls true []) r
      else RE.mkCat (chr c) r)
    RE.eps

/-- `allowedPatterns` / `blockedPatterns`: `null` when the configured list
is empty or absent, else the compiled patterns. -/
def patternsOf (hosts : List String) : Option (List RE) :=
  if hosts.isEmpty then none else some (hosts.map compileHostPattern)

/-- `matchesPattern(url, patterns)`: `false` on `null`, else `.some(p =>
p.test(url))` (case-sensitive, anchored). -/
def matchesPattern (url : String) (patterns : Option (List RE)) : Bool :=
  match patterns with
  | none => false
  | some ps => ps.any (fun p => RE.matchAll p url.data)

/-- `isChromeExtension(url)`. -/
def isChromeExtension (url : String) : Bool :=
  url.startsWith "chrome-extension://"

/-- The outcome of one `checkAndBlockScript` call: the boolean return
value, whether `script.remove()` ran, the events delivered to `onBlocked`,
and the script element afterwards (its `data-pi-checked` marker may have
been set). -/
structure CheckOutcome where
  result : Bool
  removed : Bool
  events : List BlockingEvent
  script : ScriptEl
deriving DecidableEq, Repr

/-- `handleUnauthorizedExecution`: fire `onBlocked` when configured. -/
def emitBlocking (hasCb : Bool) (ev : BlockingEvent) : List BlockingEvent :=
  if hasCb then [ev] else []

/-- `ScriptBlocker.checkAndBlockScript(script)` from `script-blocking.ts`:
inline scripts pass; a `src` that fails to parse is caught (warn, return
`false`); then extension check, allow-list (silent pass), block-list
(callback + removal), and the unknown-origin report path. -/
def checkAndBlockScript (cfg : BlockingConfig)
    (parseURL : String → String → Option URLParts) (loc : PageLocation)
    (script : ScriptEl) : CheckOutcome :=
  if script.src = "" && script.textContent != "" then
    { result := false, removed := false, events := [], script := script }
  else if script.src != "" then
    match parseURL script.src loc.origin with
    | none =>
        { result := false, removed := false, events := [], script := script }
    | some scriptUrl =>
        let fullUrl := scriptUrl.href
        if cfg.blockExtensions && isChromeExtension fullUrl then
          { result := true, removed := true
            events := emitBlocking cfg.hasOnBlocked
              { etype := "extension", source := "external",
                origin := scriptUrl.origin }
            script := script }
        else if matchesPattern fullUrl (patternsOf cfg.allowedHosts) then
          { result := false, removed := false, events := [], script := script }
        else if matchesPattern fullUrl (patternsOf cfg.blockedHosts) then
          { result := true, removed := true
            events := emitBlocking cfg.hasOnBlocked
              { etype := "blocked", source := "external",
                origin := scriptUrl.origin }
            script := script }
        else if cfg.reportUnknownScripts &&
                (scriptUrl.protocol == "http:" || scriptUrl.protocol == "https:") &&
                scriptUrl.hostname != loc.hostname then
          if !script.dataPiChecked then
            { result := false, removed := false
              events := emitBlocking cfg.hasOnBlocked
                { etype := "unknown-origin", source := "external",
                  origin := scriptUrl.origin }
              script := { script with dataPiChecked := true } }
          else
            { result := false, removed := false, events := [], script := script }
        else
          { result := false, removed := false, events := [], script := script }
  else
    { result := false, removed := false, events := [], script := script }

/-! ## Helper lemmas -/

/-- After `Map.set`, the key maps to the stored value. -/
theorem lookup_mapSet_self (m : List (String × BlockedScript)) (k : String)
    (v : BlockedScript) : List.lookup k (mapSet m k v) = some v := by
  induction m with
  | nil => simp [mapSet, List.lookup]
  | cons hd tl ih =>
      obtain ⟨k0, v0⟩ := hd
      by_cases h : k0 = k
      · simp [mapSet, h, List.lookup]
      · have hkk : (k == k0) = false := beq_eq_false_iff_ne.mpr (Ne.symm h)
        simp [mapSet, h, List.lookup, hkk, ih]

/-! ## Claim theorems -/

/-- **C1** (deny precedence): whenever the url matches a configured
deny-list pattern, `shouldBlockScript` returns `blocked:true` with reason
`'Blacklisted script'`, performs no analysis, and delivers the blocked
event to a configured `onBlocked` callback — for every configuration,
including those whose allow-list also matches the url: the deny-list check
runs first and short-circuits. -/
theorem shouldBlockScript_deny_precedence (cfg : PageIntegrityConfig)
    (st : SBState) (now : Nat) (url content : String)
    (hb : ∃ pat ∈ cfg.blackListedScripts, jsIncludes url pat = true) :
    (shouldBlockScript cfg st now url content).result.blocked = true ∧
    (shouldBlockScript cfg st now url content).result.reason
      = some "Blacklisted script" ∧
    (shouldBlockScript cfg st now url content).analyzerCalls = 0 ∧
    (cfg.hasOnBlocked = true →
      (shouldBlockScript cfg st now url content).events
        = [{ etype := "script", timestamp := now, url := url,
             source := "external",
             details := { url := url, reason := "Blacklisted script",
                          analysis := none } }]) := by
  have hb' : cfg.blackListedScripts.any (fun pat => jsIncludes url pat) = true := by
    rw [List.any_eq_true]; simpa using hb
  refine ⟨?_, ?_, ?_, ?_⟩ <;>
    simp [shouldBlockScript, hb', emitIf]

/-- Witness for C1: a url on both the deny list and the allow list is
blocked with the blacklist reason and event. -/
theorem shouldBlockScript_deny_precedence_witness :
    (∃ pat ∈ ["evil.com"], jsIncludes "https://evil.com/x.js" pat = true) ∧
    (shouldBlockScript
        { blackListedScripts := ["evil.com"],
          whiteListedScripts := ["evil.com"], hasOnBlocked := true,
          analysisConfig := DEFAULT_ANALYSIS_CONFIG }
        { blockedScripts := [], cache := [] } 0 "https://evil.com/x.js"
        "").result.blocked = true := by
  refine ⟨by decide, ?_⟩
  exact (shouldBlockScript_deny_precedence
    { blackListedScripts := ["evil.com"], whiteListedScripts := ["evil.com"],
      hasOnBlocked := true, analysisConfig := DEFAULT_ANALYSIS_CONFIG }
    { blockedScripts := [], cache := [] } 0 "https://evil.com/x.js" ""
    (by decide)).1

/-- **C2** (allow-list silence): when the url matches an allow-list pattern
and no deny-list pattern, `shouldBlockScript` returns `blocked:false` with
reason `'Whitelisted script'`, runs the Content Analyzer zero times, and
delivers no `onBlocked` event at all. -/
theorem shouldBlockScript_allow_silence (cfg : PageIntegrityConfig)
    (st : SBState) (now : Nat) (url content : String)
    (hw : ∃ pat ∈ cfg.whiteListedScripts, jsIncludes url pat = true)
    (hb : ∀ pat ∈ cfg.blackListedScripts, jsIncludes url pat = false) :
    (shouldBlockScript cfg st now url content).result.blocked = false ∧
    (shouldBlockScript cfg st now url content).result.reason
      = some "Whitelisted script" ∧
    (shouldBlockScript cfg st now url content).analyzerCalls = 0 ∧
    (shouldBlockScript cfg st now url content).events = [] := by
  have hw' : cfg.whiteListedScripts.any (fun pat => jsIncludes url pat) = true := by
    rw [List.any_eq_true]; simpa using hw
  have hb' : cfg.blackListedScripts.any (fun pat => jsIncludes url pat) = false := by
    rw [List.any_eq_false]; simpa using hb
  refine ⟨?_, ?_, ?_, ?_⟩ <;>
    simp [shouldBlockScript, hb', hw']

/-- Witness for C2: an allow-listed url is passed through silently. -/
theorem shouldBlockScript_allow_silence_witness :
    (∃ pat ∈ ["good.com"], jsIncludes "https://good.com/x.js" pat = true) ∧
    (∀ pat ∈ ["evil.com"], jsIncludes "https://good.com/x.js" pat = false) ∧
    (shouldBlockScript
        { blackListedScripts := ["evil.com"],
          whiteListedScripts := ["good.com"], hasOnBlocked := true,
          analysisConfig := DEFAULT_ANALYSIS_CONFIG }
        { blockedScripts := [], cache := [] } 0 "https://good.com/x.js"
        "").events = [] := by
  refine ⟨by decide, by decide, ?_⟩
  exact (shouldBlockScript_allow_silence
    { blackListedScripts := ["evil.com"], whiteListedScripts := ["good.com"],
      hasOnBlocked := true, analysisConfig := DEFAULT_ANALYSIS_CONFIG }
    { blockedScripts := [], cache := [] } 0 "https://good.com/x.js" ""
    (by decide) (by decide)).2.2.2

/-- **C10** (universal recording): every `shouldBlockScript` call records
its url in the `blockedScripts` map whatever the verdict — whitelisted and
cleanly analyzed scripts included — so `isScriptBlocked(url)` is true
afterwards (and `getBlockedScriptsCount` counts allowed scripts too). -/
theorem shouldBlockScript_records_url (cfg : PageIntegrityConfig)
    (st : SBState) (now : Nat) (url content : String) :
    isScriptBlocked (shouldBlockScript cfg st now url content).state url
      = true ∧
    1 ≤ getBlockedScriptsCount (shouldBlockScript cfg st now url content).state := by
  have hlen : ∀ (m : List (String × BlockedScript)) (k : String)
      (v : BlockedScript), 1 ≤ (mapSet m k v).length := by
    intro m k v
    induction m with
    | nil => simp [mapSet]
    | cons hd tl ih =>
        obtain ⟨k0, v0⟩ := hd
        by_cases h : k0 = k <;> simp [mapSet, h]
  simp only [shouldBlockScript, isScriptBlocked, getBlockedScriptsCount]
  split_ifs <;> simp [lookup_mapSet_self, hlen]

/-- Category weights are never negative. -/
theorem categoryWeight_nonneg (category : String) : 0 ≤ categoryWeight category := by
  unfold categoryWeight
  split_ifs <;> decide

/-- The inner pattern loop never decreases the running score. -/
theorem foldl_patStep_score_le (content category : String)
    (pats : List (String × RE)) :
    ∀ acc : List String × List AnalysisDetail × Int,
      acc.2.2 ≤ (pats.foldl (patStep content category) acc).2.2 := by
  induction pats with
  | nil => intro acc; simp
  | cons p rest ih =>
      intro acc
      refine le_trans ?_ (ih (patStep content category acc p))
      unfold patStep
      split
      · have := categoryWeight_nonneg category
        simp; omega
      · exact le_refl _

/-- The category loop never decreases the running score. -/
theorem foldl_catStep_score_le (content : String)
    (cats : List (String × List (String × RE))) :
    ∀ acc : List String × List AnalysisDetail × Int,
      acc.2.2 ≤ (cats.foldl (catStep content) acc).2.2 := by
  induction cats with
  | nil => intro acc; simp
  | cons c rest ih =>
      intro acc
      exact le_trans (foldl_patStep_score_le content c.1 c.2 acc)
        (ih (catStep content acc c))

/-- The pattern scan yields a non-negative score. -/
theorem scanAll_score_nonneg (content : String) : 0 ≤ (scanAll content).2.2 :=
  foldl_catStep_score_le content MALICIOUS_PATTERNS ([], [], 0)

/-- When no pattern of the list matches, the inner loop is the identity. -/
theorem foldl_patStep_no_match (content category : String)
    (pats : List (String × RE))
    (h : ∀ p ∈ pats, reTest p.2 content = false) :
    ∀ acc, pats.foldl (patStep content category) acc = acc := by
  induction pats with
  | nil => intro acc; simp
  | cons p rest ih =>
      intro acc
      have hp : reTest p.2 content = false := h p (by simp)
      have hrest : ∀ q ∈ rest, reTest q.2 content = false := by
        intro q hq; exact h q (by simp [hq])
      simp only [List.foldl_cons]
      rw [show patStep content category acc p = acc by
        unfold patStep; rw [hp]; simp]
      exact ih hrest acc

/-- When no malicious pattern matches, the whole scan returns the empty
accumulator. -/
theorem scanAll_no_match (content : String)
    (h : ∀ p ∈ allMaliciousPatterns, reTest p.2 content = false) :
    scanAll content = ([], [], 0) := by
  have hcats : ∀ cat ∈ MALICIOUS_PATTERNS, ∀ p ∈ cat.2,
      reTest p.2 content = false := by
    intro cat hcat p hp
    exact h p (by
      unfold allMaliciousPatterns
      rw [List.mem_flatMap]
      exact ⟨cat, hcat, hp⟩)
  unfold scanAll
  generalize hM : MALICIOUS_PATTERNS = cats at hcats
  clear hM
  induction cats with
  | nil => simp
  | cons c rest ih =>
      simp only [List.foldl_cons]
      rw [show catStep content ([], [], 0) c = (([], [], 0) : List String × List AnalysisDetail × Int) by
        unfold catStep
        exact foldl_patStep_no_match content c.1 c.2 (hcats c (by simp)) _]
      exact ih (fun cat hcat => hcats cat (by simp [hcat]))

/-- **C6** (analyzer determinism): two runs of `analyzeScript` on the same
text and configuration produce the same `AnalysisResult` in every field —
the embedding is a pure function of its two arguments, as the source
consults no randomness, clock or I/O. -/
theorem analyzeScript_deterministic (content : String)
    (config : AnalysisConfig) (r1 r2 : ScriptAnalysis)
    (h1 : r1 = analyzeScript content config)
    (h2 : r2 = analyzeScript content config) :
    r1.threats = r2.threats ∧ r1.score = r2.score ∧
    r1.details = r2.details ∧
    r1.suspiciousStrings = r2.suspiciousStrings ∧
    r1.categories = r2.categories := by
  subst h1; subst h2
  exact ⟨rfl, rfl, rfl, rfl, rfl⟩

/-- Witness for C6 on a concrete script text. -/
theorem analyzeScript_deterministic_witness :
    (analyzeScript "eval(\"alert(1)\")" DEFAULT_ANALYSIS_CONFIG).score
      = (analyzeScript "eval(\"alert(1)\")" DEFAULT_ANALYSIS_CONFIG).score :=
  (analyzeScript_deterministic "eval(\"alert(1)\")" DEFAULT_ANALYSIS_CONFIG
    _ _ rfl rfl).2.1

/-- **C7** (zero score on no match, non-negativity): the score is never
negative for any text and config; and whenever no malicious pattern of any
category matches the text and no suspicious string is detected, the result
is an empty threat list with score 0 (as in
`analyzeScript('console.log("hello")')`). -/
theorem analyzeScript_no_match_zero (content : String)
    (config : AnalysisConfig)
    (hpat : ∀ p ∈ allMaliciousPatterns, reTest p.2 content = false)
    (hsusp : detectSuspiciousStrings content = []) :
    (analyzeScript content config).threats = [] ∧
    (analyzeScript content config).score = 0 ∧
    (∀ (c : String) (k : AnalysisConfig), 0 ≤ (analyzeScript c k).score) := by
  have hscan := scanAll_no_match content hpat
  have hnn : ∀ (c : String) (k : AnalysisConfig), 0 ≤ (analyzeScript c k).score := by
    intro c k
    unfold analyzeScript
    have h0 := scanAll_score_nonneg c
    split_ifs <;> simp <;> omega
  refine ⟨?_, ?_, hnn⟩ <;>
    simp [analyzeScript, hscan, hsusp]

/-- Witness for C7: `console.log("hello")` matches nothing and scores 0. -/
theorem analyzeScript_no_match_zero_witness :
    (analyzeScript "console.log(\"hello\")" DEFAULT_ANALYSIS_CONFIG).threats
      = [] ∧
    (analyzeScript "console.log(\"hello\")" DEFAULT_ANALYSIS_CONFIG).score
      = 0 := by
  have h := analyzeScript_no_match_zero "console.log(\"hello\")"
    DEFAULT_ANALYSIS_CONFIG (by decide) (by decide)
  exact ⟨h.1, h.2.1⟩

/-- `shouldBlockScript` never writes to the cache: the `CacheManager`
contents after a call are exactly those before it. -/
theorem shouldBlockScript_cache_unchanged (cfg : PageIntegrityConfig)
    (st : SBState) (now : Nat) (url content : String) :
    (shouldBlockScript cfg st now url content).state.cache = st.cache := by
  simp only [shouldBlockScript]
  split_ifs <;> rfl

/-- The returned result and the analyzer-invocation count of
`shouldBlockScript` depend on the state only through the cache. -/
theorem shouldBlockScript_depends_on_cache (cfg : PageIntegrityConfig)
    (st st' : SBState) (now now' : Nat) (url content : String)
    (h : st.cache = st'.cache) :
    (shouldBlockScript cfg st now url content).result
      = (shouldBlockScript cfg st' now' url content).result ∧
    (shouldBlockScript cfg st now url content).analyzerCalls
      = (shouldBlockScript cfg st' now' url content).analyzerCalls := by
  simp only [shouldBlockScript, h]
  split_ifs <;> exact ⟨rfl, rfl⟩

/-- **C3 counterexample**: with an empty configuration and an empty cache,
calling `shouldBlockScript` twice on the same url and content does give the
same verdict, but the second call *does* re-invoke the Content Analyzer —
nothing was cached by the first call — so the claim's conjunction fails at
this input. -/
theorem shouldBlockScript_second_call_reanalyzes :
    ¬ (((shouldBlockScript
          { blackListedScripts := [], whiteListedScripts := [],
            hasOnBlocked := false, analysisConfig := DEFAULT_ANALYSIS_CONFIG }
          { blockedScripts := [], cache := [] } 0 "https://a.com/x.js"
          "x").result.blocked
        = (shouldBlockScript
            { blackListedScripts := [], whiteListedScripts := [],
              hasOnBlocked := false,
              analysisConfig := DEFAULT_ANALYSIS_CONFIG }
            (shouldBlockScript
              { blackListedScripts := [], whiteListedScripts := [],
                hasOnBlocked := false,
                analysisConfig := DEFAULT_ANALYSIS_CONFIG }
              { blockedScripts := [], cache := [] } 0 "https://a.com/x.js"
              "x").state 0 "https://a.com/x.js" "x").result.blocked) ∧
       (shouldBlockScript
          { blackListedScripts := [], whiteListedScripts := [],
            hasOnBlocked := false, analysisConfig := DEFAULT_ANALYSIS_CONFIG }
          (shouldBlockScript
            { blackListedScripts := [], whiteListedScripts := [],
              hasOnBlocked := false,
              analysisConfig := DEFAULT_ANALYSIS_CONFIG }
            { blockedScripts := [], cache := [] } 0 "https://a.com/x.js"
            "x").state 0 "https://a.com/x.js" "x").analyzerCalls = 0) := by
  decide

/-- **C3 amended**: two `shouldBlockScript` calls with the same url and
identical content yield the same `blocked` verdict; but `shouldBlockScript`
itself never caches the fresh analysis (the cache is unchanged), so the
second call invokes the Content Analyzer exactly as many times as the
first did, rather than being served from the cache. -/
theorem shouldBlockScript_idempotent_verdict (cfg : PageIntegrityConfig)
    (st : SBState) (now1 now2 : Nat) (url content : String) :
    (shouldBlockScript cfg
        (shouldBlockScript cfg st now1 url content).state now2 url
        content).result.blocked
      = (shouldBlockScript cfg st now1 url content).result.blocked ∧
    (shouldBlockScript cfg st now1 url content).state.cache = st.cache ∧
    (shouldBlockScript cfg
        (shouldBlockScript cfg st now1 url content).state now2 url
        content).analyzerCalls
      = (shouldBlockScript cfg st now1 url content).analyzerCalls := by
  have hc := shouldBlockScript_cache_unchanged cfg st now1 url content
  have hdep := shouldBlockScript_depends_on_cache cfg
    (shouldBlockScript cfg st now1 url content).state st now2 now1 url content hc
  exact ⟨by rw [hdep.1], hc, by rw [hdep.2]⟩

/-- An analysis configuration with thresholds away from the defaults
(`minScore 10`, `maxThreats 5`), for exercising the threshold comparison. -/
def highThresholds : AnalysisConfig :=
  { minScore := 10
    maxThreats := 5
    checkSuspiciousStrings := true
    weights :=
      { evasion := 3, covertExecution := 3, securityBypass := 2,
        maliciousIntent := 2 }
    scoringRules :=
      { minSafeScore := 3, maxThreats := 2, suspiciousStringWeight := 1 } }

set_option maxRecDepth 40000 in
/-- **C4 counterexample**: under `minScore 10` / `maxThreats 5`, the script
`setTimeout("x")` (score 3, one threat) is *not* judged malicious by the
fresh-analysis path, but the very same analysis served from the cache *is*
blocked — `checkCachedResponse` hard-codes the default thresholds
`score >= 3 || threats.length >= 2` instead of the configured ones. -/
theorem checkCachedResponse_threshold_mismatch :
    (shouldBlockScript
        { blackListedScripts := [], whiteListedScripts := [],
          hasOnBlocked := false, analysisConfig := highThresholds }
        { blockedScripts := [],
          cache := [(createHash "setTimeout(\"x\")",
            { url := "https://a.com/x.js",
              analysis := some (analyzeScript "setTimeout(\"x\")" highThresholds),
              reason := none })] }
        0 "https://a.com/x.js" "setTimeout(\"x\")").result.blocked = true ∧
    (shouldBlockScript
        { blackListedScripts := [], whiteListedScripts := [],
          hasOnBlocked := false, analysisConfig := highThresholds }
        { blockedScripts := [], cache := [] }
        0 "https://a.com/x.js" "setTimeout(\"x\")").result.blocked = false := by
  decide

/-- **C4 amended**: the cache-hit verdict coincides with the fresh-path
verdict for the same analysis exactly when the configured thresholds are
the defaults (`minScore = 3`, `maxThreats = 2`); in general
`checkCachedResponse` applies the fixed thresholds `score >= 3 ||
threats.length >= 2` regardless of the configuration. -/
theorem checkCachedResponse_default_threshold_equiv (cache : Cache)
    (url content : String) (entry : CacheEntry) (a : ScriptAnalysis)
    (acfg : AnalysisConfig) (h1 : acfg.minScore = 3) (h2 : acfg.maxThreats = 2)
    (hc : getCachedResponse cache (createHash content) = some entry)
    (he : entry.analysis = some a) :
    (checkCachedResponse cache url content).blocked
      = (decide (acfg.minScore ≤ a.score) ||
         decide (acfg.maxThreats ≤ a.threats.length)) := by
  unfold checkCachedResponse
  simp only [hc, he, h1, h2]

set_option maxRecDepth 40000 in
/-- Witness for the amended C4 at the default configuration. -/
theorem checkCachedResponse_default_threshold_equiv_witness :
    (checkCachedResponse
        [(createHash "setTimeout(\"x\")",
          { url := "u",
            analysis := some (analyzeScript "setTimeout(\"x\")"
              DEFAULT_ANALYSIS_CONFIG),
            reason := none })]
        "u" "setTimeout(\"x\")").blocked
      = (decide (DEFAULT_ANALYSIS_CONFIG.minScore ≤
            (analyzeScript "setTimeout(\"x\")" DEFAULT_ANALYSIS_CONFIG).score) ||
         decide (DEFAULT_ANALYSIS_CONFIG.maxThreats ≤
            (analyzeScript "setTimeout(\"x\")"
              DEFAULT_ANALYSIS_CONFIG).threats.length)) :=
  checkCachedResponse_default_threshold_equiv
    [(createHash "setTimeout(\"x\")",
      { url := "u",
        analysis := some (analyzeScript "setTimeout(\"x\")"
          DEFAULT_ANALYSIS_CONFIG),
        reason := none })]
    "u" "setTimeout(\"x\")"
    { url := "u",
      analysis := some (analyzeScript "setTimeout(\"x\")"
        DEFAULT_ANALYSIS_CONFIG),
      reason := none }
    (analyzeScript "setTimeout(\"x\")" DEFAULT_ANALYSIS_CONFIG)
    DEFAULT_ANALYSIS_CONFIG rfl rfl (by decide) rfl

/-- `cache.put` on a fresh key appends the entry. -/
theorem cachePut_fresh (cache : Cache) (k : String) (e : CacheEntry)
    (hfresh : k ∉ cacheKeys cache) :
    cachePut cache k e = cache ++ [(k, e)] := by
  induction cache with
  | nil => simp [cachePut]
  | cons hd tl ih =>
      obtain ⟨k0, e0⟩ := hd
      simp only [cacheKeys, List.map_cons, List.mem_cons] at hfresh
      push_neg at hfresh
      have h0 : ¬ k0 = k := fun h => hfresh.1 h.symm
      simp [cachePut, h0, ih (by simpa [cacheKeys] using hfresh.2)]

/-- `cache.put` grows the store by at most one entry. -/
theorem cachePut_length_le (cache : Cache) (k : String) (e : CacheEntry) :
    (cachePut cache k e).length ≤ cache.length + 1 := by
  induction cache with
  | nil => simp [cachePut]
  | cons hd tl ih =>
      obtain ⟨k0, e0⟩ := hd
      by_cases h : k0 = k
      · simp [cachePut, h]
      · simp only [cachePut, if_neg h, List.length_cons]
        omega

/-- Deleting the key at the head removes exactly the head entry. -/
theorem cacheDeleteKey_cons_self (k : String) (e : CacheEntry) (rest : Cache) :
    cacheDeleteKey ((k, e) :: rest) k = rest := by
  simp [cacheDeleteKey]

/-- The entry stored for every hash in the eviction scenario of C5. -/
def scenarioEntry : CacheEntry :=
  ⟨"https://example.com/x.js", none, none⟩

/-- Driver for the eviction scenario: insert each hash in turn through
`CacheManager.cacheResponse` (same url, no analysis). -/
def insertAll (maxSize : Nat) (cache : Cache) (hs : List String) : Cache :=
  hs.foldl
    (fun c h => cacheResponse maxSize c h "https://example.com/x.js" none) cache

/-- The keys of a store built by pairing each hash with the scenario
entry are those hashes. -/
theorem cacheKeys_map_pair (l : List String) :
    cacheKeys (l.map fun h => (h, scenarioEntry)) = l := by
  induction l with
  | nil => rfl
  | cons x t ih =>
      simp only [cacheKeys, List.map_cons, List.map_map] at ih ⊢
      rw [ih]

/-- One `cacheResponse` call below the bound on a fresh key appends. -/
theorem cacheResponse_append (maxSize : Nat) (cache : Cache) (h : String)
    (hq : h ∉ cacheKeys cache) (hlen : cache.length + 1 ≤ maxSize) :
    cacheResponse maxSize cache h "https://example.com/x.js" none
      = cache ++ [(h, scenarioEntry)] := by
  have hput : cachePut cache h ⟨"https://example.com/x.js", none, none⟩
      = cache ++ [(h, scenarioEntry)] :=
    cachePut_fresh cache h scenarioEntry hq
  have hno : ¬ maxSize < (cache ++ [(h, scenarioEntry)]).length := by
    simp only [List.length_append, List.length_cons, List.length_nil]
    omega
  simp only [cacheResponse]
  rw [hput, if_neg hno]

/-- As long as the bound is not reached, inserting fresh distinct hashes
just appends them in order. -/
theorem insertAll_no_evict (maxSize : Nat) (hs : List String) :
    ∀ cache : Cache, (∀ h ∈ hs, h ∉ cacheKeys cache) → hs.Nodup →
      cache.length + hs.length ≤ maxSize →
      insertAll maxSize cache hs
        = cache ++ hs.map (fun h => (h, scenarioEntry)) := by
  induction hs with
  | nil => intro cache _ _ _; simp [insertAll]
  | cons h rest ih =>
      intro cache hfresh hnd hlen
      simp only [List.length_cons] at hlen
      have hstep := cacheResponse_append maxSize cache h
        (hfresh h (by simp)) (by omega)
      have hkeys : cacheKeys (cache ++ [(h, scenarioEntry)])
          = cacheKeys cache ++ [h] := by
        simp [cacheKeys]
      have hfresh' : ∀ h' ∈ rest,
          h' ∉ cacheKeys (cache ++ [(h, scenarioEntry)]) := by
        intro h' hh'
        rw [hkeys]
        simp only [List.mem_append, List.mem_singleton]
        push_neg
        exact ⟨hfresh h' (by simp [hh']), fun he =>
          (List.nodup_cons.mp hnd).1 (he ▸ hh')⟩
      have hrec := ih (cache ++ [(h, scenarioEntry)]) hfresh'
        (List.nodup_cons.mp hnd).2
        (by simp only [List.length_append, List.length_cons, List.length_nil]
            omega)
      calc insertAll maxSize cache (h :: rest)
          = insertAll maxSize (cache ++ [(h, scenarioEntry)]) rest := by
            simp [insertAll, List.foldl_cons, hstep]
        _ = cache ++ (h :: rest).map (fun h => (h, scenarioEntry)) := by
            rw [hrec]; simp

/-- Inserting a fresh hash into a store exactly at the bound evicts the
oldest entry: the result is the tail of the appended store. -/
theorem cacheResponse_evict (maxSize : Nat) (c : Cache) (k : String)
    (hfresh : k ∉ cacheKeys c) (hlen : c.length = maxSize) :
    cacheResponse maxSize c k "https://example.com/x.js" none
      = (c ++ [(k, scenarioEntry)]).tail := by
  have hput : cachePut c k ⟨"https://example.com/x.js", none, none⟩
      = c ++ [(k, scenarioEntry)] :=
    cachePut_fresh c k scenarioEntry hfresh
  have hgt : maxSize < (c ++ [(k, scenarioEntry)]).length := by
    simp [hlen]
  simp only [cacheResponse]
  rw [hput, if_pos hgt]
  cases c with
  | nil => simp [cacheKeys, cacheDeleteKey]
  | cons y rest =>
      obtain ⟨ky, ey⟩ := y
      simp only [cacheKeys, List.map_cons, List.cons_append, List.tail_cons]
      exact cacheDeleteKey_cons_self ky ey (rest ++ [(k, scenarioEntry)])

/-- Inserting `maxSize + 1` distinct hashes into an empty store leaves
exactly the later `maxSize` of them, in order. -/
theorem insertAll_overflow (maxSize : Nat) (hs : List String)
    (hnd : hs.Nodup) (hlen : hs.length = maxSize + 1) :
    insertAll maxSize [] hs = hs.tail.map (fun h => (h, scenarioEntry)) := by
  have hne : hs ≠ [] := by
    intro h; rw [h] at hlen; simp at hlen
  obtain ⟨front, last, hfl⟩ : ∃ front last, hs = front ++ [last] :=
    ⟨hs.dropLast, hs.getLast hne, (List.dropLast_append_getLast hne).symm⟩
  subst hfl
  have hfront_len : front.length = maxSize := by
    simp only [List.length_append, List.length_cons, List.length_nil] at hlen
    omega
  obtain ⟨hnd_front, _, hdisj⟩ := List.nodup_append.mp hnd
  have hlast_notin : last ∉ front := fun hmem => hdisj hmem (by simp)
  have hsplit : insertAll maxSize [] (front ++ [last])
      = cacheResponse maxSize (insertAll maxSize [] front) last
          "https://example.com/x.js" none := by
    simp [insertAll, List.foldl_append]
  have hfill : insertAll maxSize [] front
      = front.map (fun h => (h, scenarioEntry)) := by
    have := insertAll_no_evict maxSize front []
      (by simp [cacheKeys]) hnd_front (by simp [hfront_len])
    simpa using this
  have hevict := cacheResponse_evict maxSize
    (front.map fun h => (h, scenarioEntry)) last
    (by rw [cacheKeys_map_pair]; exact hlast_notin)
    (by simp [hfront_len])
  rw [hsplit, hfill, hevict]
  rw [show front.map (fun h => (h, scenarioEntry)) ++ [(last, scenarioEntry)]
      = (front ++ [last]).map (fun h => (h, scenarioEntry)) by simp]
  cases front with
  | nil => simp
  | cons x front' => simp

/-- **C5** (eviction bound): a completed `cacheResponse` call never leaves
more than `maxSize` entries (given it started within the bound); and
inserting `maxSize + 1` distinct hashes into an initially empty cache
leaves exactly `maxSize` entries with the first-inserted hash evicted
(insertion order, not true recency) and every later hash present. -/
theorem cacheResponse_eviction_bound (maxSize : Nat) :
    (∀ (cache : Cache) (hash url : String) (analysis : Option ScriptAnalysis),
        cache.length ≤ maxSize →
        (cacheResponse maxSize cache hash url analysis).length ≤ maxSize) ∧
    (∀ hs : List String, hs.Nodup → hs.length = maxSize + 1 →
        (insertAll maxSize [] hs).length = maxSize ∧
        (∀ h0, hs.head? = some h0 →
          h0 ∉ cacheKeys (insertAll maxSize [] hs)) ∧
        (∀ h ∈ hs.tail, h ∈ cacheKeys (insertAll maxSize [] hs))) := by
  constructor
  · intro cache hash url analysis hle
    have hput := cachePut_length_le cache hash
      ⟨url, analysis, none⟩
    simp only [cacheResponse]
    split_ifs with hgt
    · cases hc : cachePut cache hash ⟨url, analysis, none⟩ with
      | nil => simp [cacheKeys]
      | cons y rest =>
          obtain ⟨ky, ey⟩ := y
          rw [hc] at hput
          simp only [cacheKeys, List.map_cons]
          rw [cacheDeleteKey_cons_self]
          simp only [List.length_cons] at hput
          omega
    · omega
  · intro hs hnd hlen
    have hov := insertAll_overflow maxSize hs hnd hlen
    rw [hov]
    rw [cacheKeys_map_pair]
    refine ⟨?_, ?_, ?_⟩
    · rw [List.length_map, List.length_tail, hlen]
      omega
    · intro h0 hh0
      cases hs with
      | nil => simp at hh0
      | cons x t =>
          simp only [List.head?_cons, Option.some.injEq] at hh0
          subst hh0
          simp only [List.tail_cons]
          exact (List.nodup_cons.mp hnd).1
    · intro h hh
      exact hh

/-- Witness for C5 at `maxSize = 2` with hashes `a`, `b`, `c`. -/
theorem cacheResponse_eviction_bound_witness :
    (([("k", ⟨"u", none, none⟩)] : Cache)).length ≤ 2 ∧
    (cacheResponse 2 [("k", ⟨"u", none, none⟩)] "h" "u" none).length ≤ 2 ∧
    (insertAll 2 [] ["a", "b", "c"]).length = 2 ∧
    "a" ∉ cacheKeys (insertAll 2 [] ["a", "b", "c"]) ∧
    "b" ∈ cacheKeys (insertAll 2 [] ["a", "b", "c"]) ∧
    "c" ∈ cacheKeys (insertAll 2 [] ["a", "b", "c"]) := by
  have hmain := cacheResponse_eviction_bound 2
  have h1 := hmain.1 [("k", ⟨"u", none, none⟩)] "h" "u" none (by decide)
  have h2 := hmain.2 ["a", "b", "c"] (by decide) (by decide)
  exact ⟨by decide, h1, h2.1, h2.2.1 "a" (by decide),
    h2.2.2 "b" (by decide), h2.2.2 "c" (by decide)⟩

/-- **C8 counterexample**: starting from a stopped interceptor over
pristine globals, `start()` followed by `stop()` leaves `window.eval`
pointing at the wrapper installed by `interceptGlobalMethods`, not at its
pre-`start()` value — `stop()` restores nothing. -/
theorem interceptor_stop_does_not_restore :
    ¬ ((interceptorStop (interceptorStart
          { isRunning := false,
            globals :=
              { evalFn := .base 0, functionCtor := .base 1,
                setTimeoutFn := .base 2, setIntervalFn := .base 3,
                xhrOpen := .base 4, xhrSend := .base 5,
                fetchFn := .base 6 } })).globals.evalFn
        = GFn.base 0) := by
  decide

/-- **C8 amended**: `stop()` after `start()` returns to the not-running
state but leaves every patched global exactly as `interceptGlobalMethods`
installed it (the source deliberately does not restore); calling `start()`
when already running or `stop()` when already stopped changes nothing. -/
theorem interceptor_start_stop_semantics (g : Globals) :
    (interceptorStop (interceptorStart { isRunning := false, globals := g }))
      = { isRunning := false, globals := interceptGlobalMethods g } ∧
    interceptorStart { isRunning := true, globals := g }
      = { isRunning := true, globals := g } ∧
    interceptorStop { isRunning := false, globals := g }
      = { isRunning := false, globals := g } := by
  refine ⟨?_, ?_, ?_⟩ <;> simp [interceptorStart, interceptorStop]

/-- **C9** (malformed URL swallowed): whenever a script element's non-empty
`src` fails to parse against the document base, `checkAndBlockScript`
catches the failure and returns `false` — the candidate is not blocked, not
removed, no `onBlocked` event fires, and the element is untouched. -/
theorem checkAndBlockScript_malformed_url (cfg : BlockingConfig)
    (parseURL : String → String → Option URLParts) (loc : PageLocation)
    (script : ScriptEl) (h1 : script.src ≠ "")
    (h2 : parseURL script.src loc.origin = none) :
    checkAndBlockScript cfg parseURL loc script
      = { result := false, removed := false, events := [], script := script } := by
  simp only [checkAndBlockScript, h1, h2]
  simp [h1]

/-- Witness for C9 on a concrete unparseable `src`. -/
theorem checkAndBlockScript_malformed_url_witness :
    ("http://bad url" ≠ "") ∧
    checkAndBlockScript
        (⟨["good.com"], ["http://bad url"], true, true, true⟩ : BlockingConfig)
        (fun _ _ => none)
        (⟨"https://page.example", "page.example"⟩ : PageLocation)
        (⟨"http://bad url", "", false⟩ : ScriptEl)
      = (⟨false, false, [],
          ⟨"http://bad url", "", false⟩⟩ : CheckOutcome) :=
  ⟨by decide,
   checkAndBlockScript_malformed_url
     ⟨["good.com"], ["http://bad url"], true, true, true⟩
     (fun _ _ => none)
     ⟨"https://page.example", "page.example"⟩
     ⟨"http://bad url", "", false⟩
     (by decide) rfl⟩
